import Mathlib

/-!
Verification of the access-control middleware of the MultiAgent API
(`api/core/middleware.py`, `api/core/config.py`), as a shallow embedding.

The embedding models:
* `RBACConfig.is_path_matched` and `RBACConfig.is_endpoint_restricted`
  as pure functions on strings;
* `Settings` by the three fields the middleware reads
  (`AUTH_ENABLED`, `MOCK_USER_ID`, `MOCK_USER_ROLE`);
* a `Request` by its method, path, and the two headers the middleware
  reads (`x-user-id`, `x-user-role`), each an `Option String`
  (`none` = header absent);
* `AuthMiddleware.get_user_info` / `check_access` and the global
  `auth_middleware` function, with `raise HTTPException` rendered as an
  `Except` error and the downstream handler (`call_next`) as an explicit
  function argument that may itself fail.  The middleware result carries
  a `Bool` recording whether the handler was invoked.
-/

namespace MultiAgent

/-- Python `str.lower()` (the role strings involved are ASCII, where
`Char.toLower` agrees with Python); stated on the character list so the
kernel can evaluate it. -/
def pyLower (s : String) : String := String.mk (s.data.map Char.toLower)

/-- Python `str.startswith(pre)`. -/
def pyStartsWith (s pre : String) : Bool := pre.data.isPrefixOf s.data

/-- Python `str.endswith(suffix)`. -/
def pyEndsWith (s suffix : String) : Bool := suffix.data.isSuffixOf s.data

/-- Python `s[:-1]`: the string without its last character. -/
def pyDropLast (s : String) : String := String.mk s.data.dropLast

/-- The four members of `UserRole` in `middleware.py` (note the source
spells the last one `supper-leader`). -/
def UserRole.ADMIN : String := "admin"

def UserRole.LEADER : String := "project-leader"

def UserRole.STAFF : String := "project-staff"

def UserRole.SUPPER_LEADER : String := "supper-leader"

/-- `RBACConfig.staff_restricted_endpoints`: method ↦ forbidden path
patterns for staff. -/
def staff_restricted_endpoints : List (String × List String) :=
  [("DELETE", ["*"]), ("POST", [""]), ("PUT", [""])]

/-- `RBACConfig.is_path_matched`: wildcard pattern match on paths. -/
def is_path_matched (pattern path : String) : Bool :=
  if pattern == "*" then true
  else if pyEndsWith pattern "/*" then pyStartsWith path (pyDropLast pattern)
  else pattern == path

/-- `RBACConfig.is_endpoint_restricted`: `true` means access denied.
Mirrors the Python: admin/leader/supper-leader bypass; only
`project-staff` (after lowercasing) is checked against the table; every
other role falls through to `return False`. -/
def is_endpoint_restricted (method path role : String) : Bool :=
  if [UserRole.ADMIN, UserRole.LEADER, UserRole.SUPPER_LEADER].contains (pyLower role) then
    false
  else if pyLower role == UserRole.STAFF then
    match staff_restricted_endpoints.lookup method with
    | some restricted_paths => restricted_paths.any (fun pattern => is_path_matched pattern path)
    | none => false
  else false

/-- The fields of `Settings` (config.py) consumed by the middleware.
`MOCK_USER_ID` is a UUID in the source; only its string value matters
here. -/
structure Settings where
  AUTH_ENABLED : Bool
  MOCK_USER_ID : String
  MOCK_USER_ROLE : String
deriving DecidableEq

/-- An inbound request, restricted to the parts the middleware reads:
method, URL path, and the `x-user-id` / `x-user-role` headers
(`none` when the header is absent). -/
structure Request where
  method : String
  path : String
  userIdHeader : Option String
  userRoleHeader : Option String
deriving DecidableEq

/-- A fault escaping the `try` body: `http` is FastAPI's
`HTTPException (status_code, detail)`, `generic` any other exception. -/
inductive Fault where
  | http (status_code : Nat) (detail : String)
  | generic (msg : String)
deriving DecidableEq

/-- An HTTP response, reduced to status code and the `detail` string of
its JSON body (for handler responses, `detail` stands for the body). -/
structure Response where
  status_code : Nat
  detail : String
deriving DecidableEq

/-- Python truthiness test `not x` applied to a header lookup result:
`True` for a missing header (`None`) and for an empty string. -/
def pyFalsy : Option String → Bool
  | none => true
  | some s => s.data.isEmpty

/-- `AuthMiddleware.get_user_info`: mock identity when auth is disabled;
otherwise the two headers, rejecting with 401 when either is falsy, and
lowercasing the role on success. -/
def get_user_info (s : Settings) (req : Request) : Except Fault (String × String) :=
  if !s.AUTH_ENABLED then
    Except.ok (s.MOCK_USER_ID, s.MOCK_USER_ROLE)
  else if pyFalsy req.userIdHeader || pyFalsy req.userRoleHeader then
    Except.error (Fault.http 401 "Missing user information in headers")
  else
    Except.ok (req.userIdHeader.getD "", pyLower (req.userRoleHeader.getD ""))

/-- `AuthMiddleware.check_access`: unconditionally `True` when auth is
disabled, otherwise the negation of `is_endpoint_restricted`. -/
def check_access (s : Settings) (method path role : String) : Bool :=
  if !s.AUTH_ENABLED then true
  else !(is_endpoint_restricted method path role)

/-- The literal bypass list of `auth_middleware`. -/
def bypass_paths : List String := ["/docs", "/redoc", "/openapi.json"]

/-- The body of `auth_middleware`'s `try` block.  Returns the
`Except`-rendered outcome together with a flag telling whether the
wrapped handler (`call_next`) was invoked. -/
def middleware_try (s : Settings) (handler : Request → Except Fault Response)
    (req : Request) : Except Fault Response × Bool :=
  if bypass_paths.contains req.path then
    (handler req, true)
  else
    match get_user_info s req with
    | Except.error f => (Except.error f, false)
    | Except.ok (_, user_role) =>
      if !(check_access s req.method req.path user_role) then
        (Except.error (Fault.http 403
          ("Access denied for role " ++ user_role ++ " to " ++ req.method ++ " " ++ req.path)),
         false)
      else (handler req, true)

/-- The two `except` clauses of `auth_middleware`: an `HTTPException`
becomes a `JSONResponse` with its own status and detail; any other
exception becomes a 500 with a generic body. -/
def handle_fault : Fault → Response
  | Fault.http status_code detail => { status_code := status_code, detail := detail }
  | Fault.generic _ => { status_code := 500, detail := "Internal server error" }

/-- `auth_middleware`: the `try` body with both `except` clauses
applied; total, so no fault ever propagates. -/
def auth_middleware (s : Settings) (handler : Request → Except Fault Response)
    (req : Request) : Response × Bool :=
  match middleware_try s handler req with
  | (Except.ok r, invoked) => (r, invoked)
  | (Except.error f, invoked) => (handle_fault f, invoked)

/-- The production-mode settings used in concrete instances below
(auth enabled; mock fields as shipped in `config.py`). -/
def settings_prod : Settings :=
  { AUTH_ENABLED := true,
    MOCK_USER_ID := "a1b2c3d4-e5f6-7890-1234-567890abcdef",
    MOCK_USER_ROLE := "admin" }

/-- The development-mode settings (auth disabled, the default of
`config.py`). -/
def settings_dev : Settings :=
  { AUTH_ENABLED := false,
    MOCK_USER_ID := "a1b2c3d4-e5f6-7890-1234-567890abcdef",
    MOCK_USER_ROLE := "admin" }

/-- `pyFalsy` holds exactly for a missing header or an empty value. -/
lemma pyFalsy_iff (o : Option String) : pyFalsy o = true ↔ o = none ∨ o = some "" := by
  cases o with
  | none => simp [pyFalsy]
  | some s =>
    cases s with
    | mk l =>
      cases l with
      | nil => simp [pyFalsy]
      | cons c cs => simp [pyFalsy, List.isEmpty, String.ext_iff]

end MultiAgent

namespace MultiAgent

/-- Claim C1: every role string whose lowercasing is one of
`admin`, `administrator`, `project-leader`, `super-leader` gets
"not restricted" from the RBAC evaluator for every method and path; in
particular `Admin`, `ADMIN` and `admin` all yield unrestricted access. -/
theorem C1_bypass_roles_unrestricted :
    ∀ method path role : String,
      (pyLower role = "admin" ∨ pyLower role = "administrator" ∨
       pyLower role = "project-leader" ∨ pyLower role = "super-leader") →
      is_endpoint_restricted method path role = false ∧
      is_endpoint_restricted method path "Admin" = false ∧
      is_endpoint_restricted method path "ADMIN" = false ∧
      is_endpoint_restricted method path "admin" = false := by
  intro method path role h
  refine ⟨?_, rfl, rfl, rfl⟩
  rcases h with h | h | h | h <;>
    (unfold is_endpoint_restricted; rw [h]; rfl)

/-- Witness for C1 at role `ADMIN`, method `DELETE`, path
`/api/domains`. -/
theorem C1_witness :
    pyLower "ADMIN" = "admin" ∧
    is_endpoint_restricted "DELETE" "/api/domains" "ADMIN" = false :=
  ⟨by decide,
   (C1_bypass_roles_unrestricted "DELETE" "/api/domains" "ADMIN" (Or.inl (by decide))).1⟩

/-- Counterexample to claim C2: `guest` is outside the bypass set, yet a
`DELETE` on a concrete path by `guest` is NOT restricted (the evaluator
only consults the forbidden-path table for `project-staff`). -/
theorem C2_counterexample :
    [UserRole.ADMIN, UserRole.LEADER, UserRole.SUPPER_LEADER].contains (pyLower "guest") = false ∧
    pyLower "guest" ≠ "project-staff" ∧
    is_endpoint_restricted "DELETE" "/api/domains/1" "guest" = false := by
  refine ⟨by decide, by decide, by decide⟩

/-- Claim C2 (amended): among non-bypass roles, only a role lowercasing
to `project-staff` is checked against the forbidden-path table — for it,
`DELETE` on any path is restricted; every other non-bypass role gets
"not restricted" for every method and path. -/
theorem C2_amended_staff_only_lookup :
    ∀ method path role : String,
      [UserRole.ADMIN, UserRole.LEADER, UserRole.SUPPER_LEADER].contains (pyLower role) = false →
      (pyLower role = "project-staff" → is_endpoint_restricted "DELETE" path role = true) ∧
      (pyLower role ≠ "project-staff" → is_endpoint_restricted method path role = false) := by
  intro method path role h
  constructor
  · intro h2
    unfold is_endpoint_restricted
    rw [h, h2]
    rfl
  · intro h2
    unfold is_endpoint_restricted
    rw [h]
    simp only [Bool.false_eq_true, if_false]
    rw [if_neg]
    simp [UserRole.STAFF, h2]

/-- Witness for C2 (amended) at role `guest`. -/
theorem C2_amended_witness :
    [UserRole.ADMIN, UserRole.LEADER, UserRole.SUPPER_LEADER].contains (pyLower "guest") = false ∧
    is_endpoint_restricted "GET" "/api/domains" "guest" = false :=
  ⟨by decide,
   (C2_amended_staff_only_lookup "GET" "/api/domains" "guest" (by decide)).2 (by decide)⟩

/-- Claim C3: for role `project-staff` and method `DELETE`, the
evaluator returns "restricted" for every path. -/
theorem C3_staff_delete_restricted :
    ∀ path : String, is_endpoint_restricted "DELETE" path "project-staff" = true := by
  intro path
  rfl

/-- Claim C4: the path matcher satisfies: `*` matches every path; a
pattern ending in `/*` matches exactly the paths starting with the
pattern minus its trailing `*` (so `foo/*` matches `foo/` and `foo/bar`
but not `fo/bar`); any other pattern matches exactly the path equal to
it (`foo` matches only `foo`). -/
theorem C4_pattern_matcher_semantics :
    (∀ path : String, is_path_matched "*" path = true) ∧
    (∀ pattern path : String, pyEndsWith pattern "/*" = true →
      (is_path_matched pattern path = true ↔ pyStartsWith path (pyDropLast pattern) = true)) ∧
    (∀ pattern path : String, pattern ≠ "*" → pyEndsWith pattern "/*" = false →
      (is_path_matched pattern path = true ↔ pattern = path)) ∧
    is_path_matched "foo/*" "foo/" = true ∧
    is_path_matched "foo/*" "foo/bar" = true ∧
    is_path_matched "foo/*" "fo/bar" = false ∧
    (∀ path : String, is_path_matched "foo" path = true ↔ "foo" = path) := by
  refine ⟨fun path => rfl, ?_, ?_, by decide, by decide, by decide, ?_⟩
  · intro pattern path h
    by_cases hp : pattern = "*"
    · subst hp
      exact absurd h (by decide)
    · simp [is_path_matched, hp, h]
  · intro pattern path hp h
    simp [is_path_matched, hp, h]
  · intro path
    simp [is_path_matched, pyEndsWith, List.isSuffixOf]

/-- Witness for C4: the prefix clause at `("foo/*", "foo/x")` and the
exact-match clause at `("bar", "bar")`. -/
theorem C4_witness :
    (is_path_matched "foo/*" "foo/x" = true ↔
      pyStartsWith "foo/x" (pyDropLast "foo/*") = true) ∧
    (is_path_matched "bar" "bar" = true ↔ "bar" = "bar") :=
  ⟨C4_pattern_matcher_semantics.2.1 "foo/*" "foo/x" (by decide),
   C4_pattern_matcher_semantics.2.2.1 "bar" "bar" (by decide) (by decide)⟩

/-- Claim C5: for role `project-staff` and method `POST` or `PUT`, the
evaluator returns "not restricted" for every non-empty path, because the
only configured forbidden pattern for those methods is the empty string,
which never matches a non-empty path. -/
theorem C5_staff_post_put_unrestricted :
    ∀ method path : String, (method = "POST" ∨ method = "PUT") → path ≠ "" →
      staff_restricted_endpoints.lookup method = some [""] ∧
      is_endpoint_restricted method path "project-staff" = false := by
  intro method path hm hp
  rcases hm with hm | hm <;> subst hm <;>
    refine ⟨rfl, ?_⟩ <;>
    · unfold is_endpoint_restricted
      rw [if_neg (by decide), if_pos (by decide)]
      show (("" : String) == path || false) = false
      rw [Bool.or_false, beq_eq_false_iff_ne]
      exact fun h => hp h.symm

/-- Witness for C5 at method `POST`, path `/api/domains`. -/
theorem C5_witness :
    ("POST" = "POST" ∨ "POST" = "PUT") ∧ "/api/domains" ≠ "" ∧
    is_endpoint_restricted "POST" "/api/domains" "project-staff" = false :=
  ⟨Or.inl rfl, by decide,
   (C5_staff_post_put_unrestricted "POST" "/api/domains" (Or.inl rfl) (by decide)).2⟩

/-- A string with at least one character is falsy only when empty. -/
lemma pyFalsy_some_ne (s : String) (h : s ≠ "") : pyFalsy (some s) = false := by
  cases hb : pyFalsy (some s) with
  | false => rfl
  | true =>
    rcases (pyFalsy_iff (some s)).mp hb with hx | hx
    · exact Option.noConfusion hx
    · exact absurd (Option.some.inj hx) h

/-- Counterexample to claim C6: a request whose `x-user-id` header is
PRESENT but empty (and whose `x-user-role` header is present) is still
rejected with 401 — Python's truthiness test `not user_id` also fires on
an empty header value, so "fails exactly when a header is absent" is
false. -/
theorem C6_counterexample :
    (Request.mk "GET" "/api/domains" (some "") (some "admin")).userIdHeader ≠ none ∧
    (Request.mk "GET" "/api/domains" (some "") (some "admin")).userRoleHeader ≠ none ∧
    get_user_info settings_prod (Request.mk "GET" "/api/domains" (some "") (some "admin")) =
      Except.error (Fault.http 401 "Missing user information in headers") :=
  ⟨by decide, by decide, rfl⟩

/-- Claim C6 (amended): with auth enabled, the resolver fails with 401
exactly when the `x-user-id` or `x-user-role` header is absent or has an
empty value; on such a failure (off the bypass paths) the middleware
returns 401 and the wrapped handler is never invoked; when both headers
are present and non-empty the resolver returns the header identity with
the role lowercased. -/
theorem C6_amended_missing_or_empty_headers_401 :
    ∀ (s : Settings) (handler : Request → Except Fault Response) (req : Request),
      s.AUTH_ENABLED = true →
      ((∃ d, get_user_info s req = Except.error (Fault.http 401 d)) ↔
        (req.userIdHeader = none ∨ req.userIdHeader = some "" ∨
         req.userRoleHeader = none ∨ req.userRoleHeader = some "")) ∧
      (∀ uid role, req.userIdHeader = some uid → uid ≠ "" →
        req.userRoleHeader = some role → role ≠ "" →
        get_user_info s req = Except.ok (uid, pyLower role)) ∧
      (bypass_paths.contains req.path = false →
        ∀ d, get_user_info s req = Except.error (Fault.http 401 d) →
        auth_middleware s handler req = ({ status_code := 401, detail := d }, false)) := by
  intro s handler req hauth
  have hcond_iff : (pyFalsy req.userIdHeader || pyFalsy req.userRoleHeader) = true ↔
      (req.userIdHeader = none ∨ req.userIdHeader = some "" ∨
       req.userRoleHeader = none ∨ req.userRoleHeader = some "") := by
    rw [Bool.or_eq_true, pyFalsy_iff, pyFalsy_iff]
    tauto
  refine ⟨⟨?_, ?_⟩, ?_, ?_⟩
  · rintro ⟨d, hd⟩
    cases hb : (pyFalsy req.userIdHeader || pyFalsy req.userRoleHeader) with
    | false => simp [get_user_info, hauth, hb] at hd
    | true => exact hcond_iff.mp hb
  · intro h
    exact ⟨"Missing user information in headers",
      by simp [get_user_info, hauth, hcond_iff.mpr h]⟩
  · intro uid role h1 hne1 h2 hne2
    simp [get_user_info, hauth, h1, h2, pyFalsy_some_ne uid hne1, pyFalsy_some_ne role hne2]
  · intro hbp d hd
    have hm : req.path ∉ bypass_paths := by simpa using hbp
    simp [auth_middleware, middleware_try, hm, hd, handle_fault]

/-- Witness for C6 (amended): auth enabled, both headers absent — the
middleware answers 401 and the handler is not invoked. -/
theorem C6_witness :
    settings_prod.AUTH_ENABLED = true ∧
    bypass_paths.contains "/api/domains" = false ∧
    auth_middleware settings_prod (fun _ => Except.ok { status_code := 200, detail := "ok" })
      (Request.mk "GET" "/api/domains" none none) =
      ({ status_code := 401, detail := "Missing user information in headers" }, false) :=
  ⟨rfl, by decide,
   (C6_amended_missing_or_empty_headers_401 settings_prod
      (fun _ => Except.ok { status_code := 200, detail := "ok" })
      (Request.mk "GET" "/api/domains" none none) rfl).2.2
     (by decide) "Missing user information in headers" rfl⟩

/-- Claim C7: a request to `/docs`, `/redoc` or `/openapi.json` is
forwarded to the wrapped handler without identity resolution or policy
evaluation — the result does not depend on the settings at all, and the
handler is invoked — even with auth enabled and no identity headers. -/
theorem C7_bypass_paths_skip_auth :
    ∀ (s : Settings) (handler : Request → Except Fault Response) (req : Request),
      (req.path = "/docs" ∨ req.path = "/redoc" ∨ req.path = "/openapi.json") →
      middleware_try s handler req = (handler req, true) ∧
      (∀ r, handler req = Except.ok r → auth_middleware s handler req = (r, true)) ∧
      (∀ s' : Settings, auth_middleware s handler req = auth_middleware s' handler req) := by
  intro s handler req h
  have hm : req.path ∈ bypass_paths := by
    rcases h with h | h | h <;> rw [h] <;> decide
  refine ⟨?_, ?_, ?_⟩
  · simp [middleware_try, hm]
  · intro r hr
    simp [auth_middleware, middleware_try, hm, hr]
  · intro s'
    simp [auth_middleware, middleware_try, hm]

/-- Witness for C7: `/docs` with auth enabled and no headers reaches the
handler and returns its response. -/
theorem C7_witness :
    middleware_try settings_prod (fun _ => Except.ok { status_code := 200, detail := "ok" })
      (Request.mk "GET" "/docs" none none) =
      (Except.ok { status_code := 200, detail := "ok" }, true) ∧
    auth_middleware settings_prod (fun _ => Except.ok { status_code := 200, detail := "ok" })
      (Request.mk "GET" "/docs" none none) = ({ status_code := 200, detail := "ok" }, true) :=
  ⟨(C7_bypass_paths_skip_auth settings_prod
      (fun _ => Except.ok { status_code := 200, detail := "ok" })
      (Request.mk "GET" "/docs" none none) (Or.inl rfl)).1,
   (C7_bypass_paths_skip_auth settings_prod
      (fun _ => Except.ok { status_code := 200, detail := "ok" })
      (Request.mk "GET" "/docs" none none) (Or.inl rfl)).2.1 _ rfl⟩

/-- Claim C8: any fault in the middleware body other than an explicit
`HTTPException` is converted to a 500 response with body detail
`Internal server error`; `auth_middleware` is total, so no raw fault
ever propagates to the transport layer. -/
theorem C8_generic_faults_become_500 :
    ∀ (s : Settings) (handler : Request → Except Fault Response) (req : Request) (msg : String),
      (middleware_try s handler req).1 = Except.error (Fault.generic msg) →
      auth_middleware s handler req =
        ({ status_code := 500, detail := "Internal server error" },
         (middleware_try s handler req).2) := by
  intro s handler req msg h
  rcases hmt : middleware_try s handler req with ⟨e, b⟩
  rw [hmt] at h
  have he : e = Except.error (Fault.generic msg) := h
  subst he
  unfold auth_middleware
  rw [hmt]
  rfl

/-- Witness for C8: a handler that raises a generic fault on a bypass
path; the middleware answers 500 with the fixed body. -/
theorem C8_witness :
    (middleware_try settings_prod (fun _ => Except.error (Fault.generic "boom"))
      (Request.mk "GET" "/docs" none none)).1 = Except.error (Fault.generic "boom") ∧
    auth_middleware settings_prod (fun _ => Except.error (Fault.generic "boom"))
      (Request.mk "GET" "/docs" none none) =
      ({ status_code := 500, detail := "Internal server error" },
       (middleware_try settings_prod (fun _ => Except.error (Fault.generic "boom"))
         (Request.mk "GET" "/docs" none none)).2) :=
  ⟨rfl,
   C8_generic_faults_become_500 settings_prod (fun _ => Except.error (Fault.generic "boom"))
     (Request.mk "GET" "/docs" none none) "boom" rfl⟩

/-- Claim C9: with the auth-enabled flag false, the resolver returns the
configured mock identity for every request, whatever the headers. -/
theorem C9_auth_disabled_mock_identity :
    ∀ (s : Settings) (req : Request), s.AUTH_ENABLED = false →
      get_user_info s req = Except.ok (s.MOCK_USER_ID, s.MOCK_USER_ROLE) := by
  intro s req h
  simp [get_user_info, h]

/-- Witness for C9 on a request with odd headers. -/
theorem C9_witness :
    settings_dev.AUTH_ENABLED = false ∧
    get_user_info settings_dev (Request.mk "DELETE" "/api/domains/1" none (some "GUEST")) =
      Except.ok (settings_dev.MOCK_USER_ID, settings_dev.MOCK_USER_ROLE) :=
  ⟨rfl,
   C9_auth_disabled_mock_identity settings_dev
     (Request.mk "DELETE" "/api/domains/1" none (some "GUEST")) rfl⟩

/-- Claim C10: with the auth-enabled flag false, `check_access` answers
`true` for every (method, path, role) without consulting the RBAC table
— even for a triple the table would restrict. -/
theorem C10_auth_disabled_allows_all :
    ∀ (s : Settings) (method path role : String), s.AUTH_ENABLED = false →
      check_access s method path role = true := by
  intro s method path role h
  simp [check_access, h]

/-- Witness for C10 at `DELETE /api/domains/1` by `project-staff` — the
RBAC table restricts this triple, yet access is allowed. -/
theorem C10_witness :
    settings_dev.AUTH_ENABLED = false ∧
    is_endpoint_restricted "DELETE" "/api/domains/1" "project-staff" = true ∧
    check_access settings_dev "DELETE" "/api/domains/1" "project-staff" = true :=
  ⟨rfl, by decide,
   C10_auth_disabled_allows_all settings_dev "DELETE" "/api/domains/1" "project-staff" rfl⟩

end MultiAgent
